import Mathlib

/-!
Shallow embedding of the `prime_fields` package (files `primes.py` and
`polynomial.py`) and verification of its specification claims.

Conventions of the embedding:
* Python machine-checked exceptions become `Except PyError`; the constructor of
  `PyError` records which Python exception class is raised on that path.
* Python `int` is `Int`; Python `%` with a positive modulus is `Int.emod`.
* `isinstance` dispatch on an operand that may be one of several runtime types
  becomes a small inductive of the admitted shapes.
* The `field=0` sentinel of `Matrix` is kept literally: `field : Nat` where `0`
  means "no field" and a positive value is the prime of the attached `Fp`.
-/

namespace PrimeFields

/-- Python exception classes raised by the embedded code paths. -/
inductive PyError
  | typeError
  | valueError
  | zeroDivisionError
  | indexError
  | attributeError
deriving DecidableEq

/-- `Fp` (primes.py 9-29): a wrapper holding the prime modulus. -/
structure Fp where
  prime : Nat
deriving DecidableEq

/-- `Fp.__init__` (primes.py 11-15): accepts the modulus only when the
primality oracle approves it, otherwise raises `ValueError`. -/
def Fp.pyInit (p : Nat) : Except PyError Fp :=
  if Nat.Prime p then .ok ⟨p⟩ else .error .valueError

/-- `Element` (primes.py 47-95): a residue stored together with its `Fp`. -/
structure Element where
  field : Fp
  value : Int
deriving DecidableEq

/-- `Element.__init__` (primes.py 49-55): the type checks on `field` and
`value` are discharged by the Lean types; the stored value is
`value % field.prime` (Python `%` with a positive modulus = `Int.emod`). -/
def Element.pyInit (f : Fp) (v : Int) : Element :=
  ⟨f, v % (f.prime : Int)⟩

/-- The runtime shapes the binary `Element` operators accept: another
`Element`, a bare integer, or anything else. -/
inductive ElemArg
  | elem (e : Element)
  | int (n : Int)
  | other
deriving DecidableEq

/-- `make_other_Element` (primes.py 32-44): an `Element` operand must carry the
same prime (else `TypeError`), a bare integer is coerced through
`Element(self.field, other)`, and any other shape raises `TypeError`. -/
def make_other_Element (self : Element) : ElemArg → Except PyError Element
  | .elem e =>
      if self.field.prime ≠ e.field.prime then .error .typeError else .ok e
  | .int n => .ok (Element.pyInit self.field n)
  | .other => .error .typeError

/-- `Element.__add__` (primes.py 68-70). -/
def Element.add (self : Element) (arg : ElemArg) : Except PyError Element :=
  (make_other_Element self arg).map fun o =>
    Element.pyInit self.field (self.value + o.value)

/-- `Element.__sub__` (primes.py 75-77). -/
def Element.sub (self : Element) (arg : ElemArg) : Except PyError Element :=
  (make_other_Element self arg).map fun o =>
    Element.pyInit self.field (self.value - o.value)

/-- `Element.__mul__` (primes.py 83-85). -/
def Element.mul (self : Element) (arg : ElemArg) : Except PyError Element :=
  (make_other_Element self arg).map fun o =>
    Element.pyInit self.field (self.value * o.value)

/-- `Polynomial` (polynomial.py 8-21): coefficients, constant term first,
restricted to plain-integer coefficients.  This is the specialization of the
full duck-typed embedding (`Scalar` / `PolynomialS` below) used by the claims
that only exercise integer inputs; `polynomial_pyInit_int_agrees` proves the
two constructors compute the same stored coefficients on integer input. -/
structure Polynomial where
  coefficients : List Int
deriving DecidableEq

/-- The trimming loop of `Polynomial.__init__` (polynomial.py 15-16),
`while coefi[-1] == 0 and len(coefi) != 1: coefi.pop()`, expressed on the
reversed list: drop leading zeros, but never drop the last element. -/
def popZeros : List Int → List Int
  | [] => []
  | [x] => [x]
  | x :: y :: t => if x = 0 then popZeros (y :: t) else x :: y :: t

/-- `Polynomial.__init__` (polynomial.py 10-17): an empty input becomes `[0]`,
otherwise trailing zeros are trimmed while keeping at least one entry. -/
def Polynomial.pyInit (coefs : List Int) : Polynomial :=
  if coefs.length = 0 then ⟨[0]⟩ else ⟨(popZeros coefs.reverse).reverse⟩

/-- `Polynomial.degree` (polynomial.py 19-21): a read-only `@property`
returning `len(self.coefficients) - 1`. -/
def Polynomial.degree (p : Polynomial) : Nat :=
  p.coefficients.length - 1

/-- The scalar type the source's `Polynomial` actually holds (spec §3): a
plain number or a field `Element`. -/
inductive Scalar
  | int (n : Int)
  | elem (e : Element)
deriving DecidableEq

/-- The Python test `coefi[-1] == 0` of the trimming loop (polynomial.py 15)
at a `Scalar`.  For a plain integer it is integer equality with `0`.  For an
`Element` it is always `False`: `Element` defines no `__eq__` (primes.py
47-95), so `element == 0` falls back to `object` identity, and an `Element`
instance is never the same object as the int `0`, whatever residue it
stores. -/
def Scalar.pyEqZero : Scalar → Bool
  | .int n => n = 0
  | .elem _ => false

/-- Whether a `Scalar` is a plain number (the claims' "bare number" case). -/
def Scalar.isInt : Scalar → Bool
  | .int _ => true
  | .elem _ => false

/-- Whether a `Scalar` is mathematically a zero coefficient: the integer `0`
or an `Element` storing the zero residue. -/
def Scalar.isZeroValue : Scalar → Bool
  | .int n => n = 0
  | .elem e => e.value = 0

/-- The trimming loop of `Polynomial.__init__` (polynomial.py 15-16) over
duck-typed scalars, expressed on the reversed list: drop leading entries
while `coefi[-1] == 0` (which is `Scalar.pyEqZero`), never dropping the last
element. -/
def popZerosS : List Scalar → List Scalar
  | [] => []
  | [x] => [x]
  | x :: y :: t => if x.pyEqZero then popZerosS (y :: t) else x :: y :: t

/-- The source's `Polynomial` over its full scalar type. -/
structure PolynomialS where
  coefficients : List Scalar
deriving DecidableEq

/-- `Polynomial.__init__` (polynomial.py 10-17) over duck-typed scalars: an
empty input becomes `(0,)`, otherwise the trimming loop runs with Python's
`== 0` test — so trailing integer zeros are trimmed, while trailing
`Element` coefficients are never trimmed, zero residue or not. -/
def PolynomialS.pyInit (coefs : List Scalar) : PolynomialS :=
  if coefs.length = 0 then ⟨[.int 0]⟩ else ⟨(popZerosS coefs.reverse).reverse⟩

/-- `Polynomial.degree` over duck-typed scalars. -/
def PolynomialS.degree (p : PolynomialS) : Nat :=
  p.coefficients.length - 1

/-- The runtime shapes `Polynomial.__add__` distinguishes: another
`Polynomial` or a bare number (the final `else` branch, which returns
`NotImplemented` and lets the interpreter raise `TypeError`, is not needed by
the claims and is omitted). -/
inductive PolyArg
  | poly (q : Polynomial)
  | num (n : Int)
deriving DecidableEq

/-- `Polynomial.__add__` (polynomial.py 41-52).  In the `Polynomial` branch
line 43 evaluates `min(self.degree(), other.degree())`; `degree` is a
`@property`, so `self.degree` is already the `int` and calling it raises
`TypeError` before any coefficient is combined.  The bare-number branch
(lines 48-50) adds to the constant term only and reconstructs through the
trimming constructor. -/
def Polynomial.add (self : Polynomial) : PolyArg → Except PyError Polynomial
  | .poly _ => .error .typeError
  | .num n =>
      .ok (Polynomial.pyInit
        ((self.coefficients.headD 0 + n) :: self.coefficients.drop 1))

/-- `Polynomial.dx` (polynomial.py 136-141): the guard on line 137 is
`if self.degree() >= 1`, which calls the integer value of the `degree`
property, so every call raises `TypeError` before either branch runs. -/
def Polynomial.dx (_p : Polynomial) : Except PyError Polynomial :=
  .error .typeError

/-- `Matrix` (primes.py 126-137).  `field : Nat` keeps the source's `field=0`
sentinel: `0` means no field, a positive value is the prime of the `Fp`. -/
structure Matrix where
  size : Nat
  field : Nat
  matrix : List (List Int)
deriving DecidableEq

/-- `_validate` (primes.py 98-103): every row must have length equal to the
row count.  (The source compares with `is`, which coincides with `==` for the
interned small-integer range covering the sizes that occur here.) -/
def _validate (array : List (List Int)) : Bool :=
  array.all fun row => row.length = array.length

/-- `_elementarise` (primes.py 106-123), value level.  With no field the array
is returned untouched.  With a field, every cell is overwritten in place with
an `Element` of that field: a raw integer `v` becomes residue `v % field`, an
`Element` already carrying the same prime keeps its reduced value `v` (and
`v % field = v`), and an `Element` of a different prime is re-homed by
reducing its stored value modulo the new prime — so on values every cell maps
to `cell % field`.  The in-place mutation of the caller's array is the subject
of claim C9; a pure function can only exhibit the value change. -/
def _elementarise (field : Nat) (array : List (List Int)) : List (List Int) :=
  if field = 0 then array
  else array.map (List.map fun v => v % (field : Int))

/-- `Matrix.__init__` (primes.py 128-137): with `field=0` no validation runs;
with a field (the `isinstance(field, Fp)` check is discharged by the type) a
non-square array raises `TypeError`, and the cells go through
`_elementarise`. -/
def Matrix.pyInit (array : List (List Int)) (field : Nat) : Except PyError Matrix :=
  if field = 0 then .ok ⟨array.length, 0, array⟩
  else if !_validate array then .error .typeError
  else .ok ⟨array.length, field, _elementarise field array⟩

/-- `_checkmatrix` (primes.py 202-209).  The non-`Matrix` branch (which raises
`TypeError` — the argument of that `raise` is itself the string division
`"..." / "..."`, so `TypeError` either way) is discharged by the Lean type.
Then: differing sizes raise `TypeError`; `not self.field` (the left operand is
field-less) raises `TypeError`; otherwise `self.field.prime - other.field.prime`
is evaluated, which on a field-less right operand is `(0).prime` and raises
`AttributeError`, and on differing primes raises `TypeError`. -/
def _checkmatrix (self other : Matrix) : Except PyError Unit :=
  if (self.size : Int) - other.size ≠ 0 then .error .typeError
  else if self.field = 0 then .error .typeError
  else if other.field = 0 then .error .attributeError
  else if (self.field : Int) - other.field ≠ 0 then .error .typeError
  else .ok ()

/-- `Matrix.__add__` (primes.py 152-160): after `_checkmatrix` both operands
carry the same positive prime, every cell is an `Element` of it, and the cell
sum is `Element.__add__`, i.e. reduction mod the prime; the result goes back
through the constructor with `self.field`.  Indexing stays in range by the
square invariant, so `getD` defaults are never consulted. -/
def Matrix.add (self other : Matrix) : Except PyError Matrix :=
  match _checkmatrix self other with
  | .error e => .error e
  | .ok _ =>
      Matrix.pyInit
        ((List.range self.size).map fun i =>
          (List.range self.size).map fun j =>
            ((self.matrix.getD i []).getD j 0 + (other.matrix.getD i []).getD j 0)
              % (self.field : Int))
        self.field

/-- `Matrix.__sub__` (primes.py 165-172), same shape as `__add__`. -/
def Matrix.sub (self other : Matrix) : Except PyError Matrix :=
  match _checkmatrix self other with
  | .error e => .error e
  | .ok _ =>
      Matrix.pyInit
        ((List.range self.size).map fun i =>
          (List.range self.size).map fun j =>
            ((self.matrix.getD i []).getD j 0 - (other.matrix.getD i []).getD j 0)
              % (self.field : Int))
        self.field

/-- The runtime shapes `companion_matrix` distinguishes (polynomial.py
149-151): a `Polynomial`, or anything else. -/
inductive CompInput
  | poly (p : Polynomial)
  | nonPoly
deriving DecidableEq

/-- The row assembly of `companion_matrix` (polynomial.py 154-168).  The
normalized coefficients are the true-division quotients by the leading
coefficient (Python floats; modelled exactly in `ℚ`), with the now-trivial
leading entry popped off.  Each loop iteration builds a zero row, puts `1` at
column `i-1` for `i > 0`, and then overwrites the LAST column with
`-coefs.pop()` — and `list.pop()` consumes from the END, so row `i` receives
`-c_(n-1-i)`, the normalized coefficients in reversed order. -/
def companionRows (p : Polynomial) : List (List ℚ) :=
  let n := p.degree
  let coefs : List ℚ :=
    (p.coefficients.map fun c => (c : ℚ) / ((p.coefficients.getLastD 0 : Int) : ℚ)).dropLast
  (List.range n).map fun i =>
    (List.range n).map fun j =>
      if j = n - 1 then -(coefs.getD (n - 1 - i) 0)
      else if i ≠ 0 ∧ j = i - 1 then 1 else 0

/-- `companion_matrix` (polynomial.py 148-169).
* non-`Polynomial` input: `TypeError` (lines 149-151);
* the degree guard on line 152 is `not poly.degree - 1`, which is true exactly
  when `degree == 1` (for degree `0` the expression is `-1`, which is truthy,
  so degree `0` passes the guard): `ValueError` only at degree `1`;
* line 155 divides by the leading coefficient; that coefficient is `0` only
  for the zero polynomial `[0]`, where Python raises `ZeroDivisionError`;
* otherwise the rows of `companionRows` are assembled, and line 169 calls
  `Matrix(n, companion, field)` — three positional arguments to
  `Matrix.__init__(self, array, field=0)` (primes.py 128), which accepts at
  most two, so Python raises `TypeError` and no `Matrix` is ever produced.
  (With `Element` coefficients the call `poly.coefficients[0][0]` on line 159
  would already have raised `TypeError`, `Element` not being subscriptable.) -/
def companion_matrix : CompInput → Except PyError Matrix
  | .nonPoly => .error .typeError
  | .poly p =>
      if p.degree = 1 then .error .valueError
      else if p.coefficients.getLastD 0 = 0 then .error .zeroDivisionError
      else
        let _rows := companionRows p
        .error .typeError

/-- `_populate_zeroes` (polynomial.py 195-202): each of the `matrix.size` rows
is `current_size` zeros, then the matrix row, then zeros up to
`total_size`. -/
def _populate_zeroes (matrix : Matrix) (current_size total_size : Nat) :
    List (List Int) :=
  (List.range matrix.size).map fun i =>
    List.replicate current_size 0 ++ matrix.matrix.getD i []
      ++ List.replicate (total_size - current_size - matrix.size) 0

/-- `_check_input` (polynomial.py 185-192): on an empty list the final
`square_matrices[0].field` raises `IndexError`; every matrix's field must
equal the first one's (`Fp.__eq__` compares primes, and a present field never
equals the absent-field sentinel `0` because primes are positive), else
`TypeError`; the common field is returned. -/
def _check_input (ms : List Matrix) : Except PyError Nat :=
  match ms with
  | [] => .error .indexError
  | m0 :: _ =>
      if ms.all fun m => m.field == m0.field then .ok m0.field
      else .error .typeError

/-- The row assembly of `block_diagonal` (polynomial.py 176-181): the rows of
each input, padded by its running offset, concatenated in order. -/
def blockRows (ms : List Matrix) (total_size : Nat) : List (List Int) :=
  (ms.foldl
    (fun acc m => (acc.1 ++ _populate_zeroes m acc.2 total_size, acc.2 + m.size))
    (([] : List (List Int)), 0)).1

/-- `block_diagonal` (polynomial.py 172-182): after `_check_input` and the row
assembly, line 182 calls `Matrix(total_size, blockdiag_matrix, field)` — three
positional arguments to the two-parameter `Matrix.__init__` (primes.py 128),
so Python raises `TypeError` and no `Matrix` is ever produced. -/
def block_diagonal (ms : List Matrix) : Except PyError Matrix :=
  match _check_input ms with
  | .error e => .error e
  | .ok _field =>
      let total_size := (ms.map Matrix.size).sum
      let _rows := blockRows ms total_size
      .error .typeError

/-! ## Helper lemmas about the trimming loop -/

/-- The trimming loop never empties a nonempty list. -/
theorem popZerosS_ne_nil : ∀ l : List Scalar, l ≠ [] → popZerosS l ≠ []
  | [], h => absurd rfl h
  | [x], _ => by simp [popZerosS]
  | x :: y :: t, _ => by
      simp only [popZerosS]
      split
      · exact popZerosS_ne_nil (y :: t) (by simp)
      · simp

/-- If the trimming loop stops with the plain number `0` in front (of the
reversed list), the whole result is the single entry `[.int 0]`. -/
theorem popZerosS_head_zero : ∀ l : List Scalar,
    (popZerosS l).head? = some (.int 0) → popZerosS l = [.int 0]
  | [], h => by simp [popZerosS] at h
  | [x], h => by
      simp [popZerosS] at h ⊢
      exact h
  | x :: y :: t, h => by
      by_cases hx : x.pyEqZero = true
      · have e : popZerosS (x :: y :: t) = popZerosS (y :: t) := by
          simp [popZerosS, hx]
        rw [e] at h ⊢
        exact popZerosS_head_zero (y :: t) h
      · have e : popZerosS (x :: y :: t) = x :: y :: t := by
          simp [popZerosS, hx]
        rw [e] at h
        simp at h
        rw [h] at hx
        exact absurd (by decide) hx

/-- On a nonempty list of plain-number zeros the trimming loop stops at
`[.int 0]`. -/
theorem popZerosS_all_zero : ∀ l : List Scalar, l ≠ [] →
    (∀ x ∈ l, x = .int 0) → popZerosS l = [.int 0]
  | [], h, _ => absurd rfl h
  | [x], _, hz => by
      have : x = .int 0 := hz x (by simp)
      simp [popZerosS, this, Scalar.pyEqZero]
  | x :: y :: t, _, hz => by
      have hx : x = .int 0 := hz x (by simp)
      have e : popZerosS (x :: y :: t) = popZerosS (y :: t) := by
        simp [popZerosS, hx, Scalar.pyEqZero]
      rw [e]
      exact popZerosS_all_zero (y :: t) (by simp) (fun z hzmem => hz z (by simp [hzmem]))

/-- On plain-integer input the duck-typed trimming loop is exactly the
integer one: the specialization used by the integer-level `Polynomial` is
faithful. -/
theorem popZerosS_map_int : ∀ l : List Int,
    popZerosS (l.map Scalar.int) = (popZeros l).map Scalar.int
  | [] => rfl
  | [_] => rfl
  | x :: y :: t => by
      simp only [List.map_cons]
      by_cases hx : x = 0
      · have h1 : popZerosS (Scalar.int x :: Scalar.int y :: t.map Scalar.int)
            = popZerosS (Scalar.int y :: t.map Scalar.int) := by
          simp [popZerosS, Scalar.pyEqZero, hx]
        have h2 : popZeros (x :: y :: t) = popZeros (y :: t) := by
          simp [popZeros, hx]
        rw [h1, h2]
        have := popZerosS_map_int (y :: t)
        simpa using this
      · have h1 : popZerosS (Scalar.int x :: Scalar.int y :: t.map Scalar.int)
            = Scalar.int x :: Scalar.int y :: t.map Scalar.int := by
          simp [popZerosS, Scalar.pyEqZero, hx]
        have h2 : popZeros (x :: y :: t) = x :: y :: t := by
          simp [popZeros, hx]
        rw [h1, h2]
        simp

/-- The integer-restricted constructor `Polynomial.pyInit` agrees with the
duck-typed `PolynomialS.pyInit` on plain-integer input. -/
theorem polynomial_pyInit_int_agrees (coefs : List Int) :
    (PolynomialS.pyInit (coefs.map Scalar.int)).coefficients
      = ((Polynomial.pyInit coefs).coefficients).map Scalar.int := by
  by_cases h : coefs.length = 0
  · simp [PolynomialS.pyInit, Polynomial.pyInit, h]
  · have hm : (coefs.map Scalar.int).length ≠ 0 := by simpa using h
    simp only [PolynomialS.pyInit, Polynomial.pyInit, if_neg h, if_neg hm]
    rw [← List.map_reverse, popZerosS_map_int, ← List.map_reverse]

/-! ## Claim theorems -/

/-- C1: the claimed postcondition — that the companion-matrix builder returns
an n×n matrix whose characteristic polynomial is the monic normalization of a
degree-≥2 input — fails on the code: on every accepted polynomial the final
`Matrix(n, companion, field)` call passes three positional arguments to the
two-parameter constructor and raises `TypeError`, so no matrix is ever
returned; moreover the rows that would have been assembled consume the
normalized coefficients from the wrong end (`coefs.pop()` pops the LAST
entry), e.g. for `x^2 + 2x + 3` (input `[3, 2, 1]`) they are
`[[0, -2], [1, -3]]` instead of the companion rows `[[0, -3], [1, -2]]`, whose
characteristic polynomial is `x^2 + 3x + 2`, not the input. -/
theorem companion_matrix_never_returns_a_matrix :
    companion_matrix (.poly (Polynomial.pyInit [1, 1, 1])) = .error .typeError ∧
    companion_matrix (.poly (Polynomial.pyInit [3, 2, 1])) = .error .typeError ∧
    companionRows (Polynomial.pyInit [3, 2, 1]) = [[0, -2], [1, -3]] := by
  refine ⟨rfl, rfl, ?_⟩
  have h : Polynomial.pyInit [3, 2, 1] = ⟨[3, 2, 1]⟩ := rfl
  rw [h]
  norm_num [companionRows, Polynomial.degree, List.range_succ]

/-- C2: polynomial-plus-polynomial does not return the padded term-wise sum:
`__add__` evaluates `self.degree()`, calling the integer value of the
`degree` property, so `Polynomial([1,1]) + Polynomial([1])` raises
`TypeError`; the bare-number branch does work as the claim states, changing
only the constant term (`Polynomial([1,2]) + 3 == Polynomial([4,2])`). -/
theorem polynomial_add_poly_raises_typeError :
    Polynomial.add (Polynomial.pyInit [1, 1]) (.poly (Polynomial.pyInit [1]))
      = .error .typeError ∧
    Polynomial.add (Polynomial.pyInit [1, 2]) (.num 3)
      = .ok (Polynomial.pyInit [4, 2]) :=
  ⟨rfl, rfl⟩

/-- C3: over `Fp` with `p` prime, adding, subtracting or multiplying the
elements made from integers `a` and `b` yields the element with value
`(a op b) mod p`; a bare-integer operand is coerced into the field first with
the same result; and every constructed value lies in `[0, p)`. -/
theorem element_field_ops_reduce_mod_p (p : Nat) (hp : Nat.Prime p) (a b : Int) :
    Element.add (Element.pyInit ⟨p⟩ a) (.elem (Element.pyInit ⟨p⟩ b))
      = .ok (Element.pyInit ⟨p⟩ (a + b)) ∧
    Element.sub (Element.pyInit ⟨p⟩ a) (.elem (Element.pyInit ⟨p⟩ b))
      = .ok (Element.pyInit ⟨p⟩ (a - b)) ∧
    Element.mul (Element.pyInit ⟨p⟩ a) (.elem (Element.pyInit ⟨p⟩ b))
      = .ok (Element.pyInit ⟨p⟩ (a * b)) ∧
    Element.add (Element.pyInit ⟨p⟩ a) (.int b) = .ok (Element.pyInit ⟨p⟩ (a + b)) ∧
    Element.sub (Element.pyInit ⟨p⟩ a) (.int b) = .ok (Element.pyInit ⟨p⟩ (a - b)) ∧
    Element.mul (Element.pyInit ⟨p⟩ a) (.int b) = .ok (Element.pyInit ⟨p⟩ (a * b)) ∧
    (∀ v : Int, 0 ≤ (Element.pyInit ⟨p⟩ v).value ∧ (Element.pyInit ⟨p⟩ v).value < p) := by
  have hp0 : (p : Int) ≠ 0 := by exact_mod_cast hp.ne_zero
  have hppos : (0 : Int) < p := by exact_mod_cast hp.pos
  refine ⟨?_, ?_, ?_, ?_, ?_, ?_, ?_⟩
  · simp only [Element.add, make_other_Element, Element.pyInit, ne_eq, not_true_eq_false,
      if_false, Except.map]
    simp only [Except.ok.injEq, Element.mk.injEq, true_and]
    exact (Int.add_emod a b p).symm
  · simp only [Element.sub, make_other_Element, Element.pyInit, ne_eq, not_true_eq_false,
      if_false, Except.map]
    simp only [Except.ok.injEq, Element.mk.injEq, true_and]
    exact (Int.sub_emod a b p).symm
  · simp only [Element.mul, make_other_Element, Element.pyInit, ne_eq, not_true_eq_false,
      if_false, Except.map]
    simp only [Except.ok.injEq, Element.mk.injEq, true_and]
    exact (Int.mul_emod a b p).symm
  · simp only [Element.add, make_other_Element, Element.pyInit, Except.map]
    simp only [Except.ok.injEq, Element.mk.injEq, true_and]
    exact (Int.add_emod a b p).symm
  · simp only [Element.sub, make_other_Element, Element.pyInit, Except.map]
    simp only [Except.ok.injEq, Element.mk.injEq, true_and]
    exact (Int.sub_emod a b p).symm
  · simp only [Element.mul, make_other_Element, Element.pyInit, Except.map]
    simp only [Except.ok.injEq, Element.mk.injEq, true_and]
    exact (Int.mul_emod a b p).symm
  · intro v
    exact ⟨Int.emod_nonneg v hp0, Int.emod_lt_of_pos v hppos⟩

/-- Witness for C3 at `p = 5`, `a = 7`, `b = 11`. -/
theorem element_field_ops_reduce_mod_p_apply :
    Nat.Prime 5 ∧
    Element.add (Element.pyInit ⟨5⟩ 7) (.elem (Element.pyInit ⟨5⟩ 11))
      = .ok (Element.pyInit ⟨5⟩ 18) :=
  ⟨by norm_num, (element_field_ops_reduce_mod_p 5 (by norm_num) 7 11).1⟩

/-- C4: the claimed degree guard is only half there.  A non-`Polynomial` input
does raise `TypeError`, and a degree-1 polynomial does raise `ValueError`
(the source's `InvalidDegreeError`), but a degree-0 polynomial is NOT
rejected by the degree guard (`not poly.degree - 1` is false at degree 0,
the expression being the truthy `-1`): `Polynomial([5])` proceeds and dies
later with `TypeError` at the malformed `Matrix` call, and `Polynomial([0])`
dies with `ZeroDivisionError` while dividing by its zero leading
coefficient — neither is the claimed `InvalidDegreeError`. -/
theorem companion_matrix_degree_zero_not_rejected :
    companion_matrix .nonPoly = .error .typeError ∧
    companion_matrix (.poly (Polynomial.pyInit [1, 1])) = .error .valueError ∧
    companion_matrix (.poly (Polynomial.pyInit [5])) = .error .typeError ∧
    companion_matrix (.poly (Polynomial.pyInit [5])) ≠ .error .valueError ∧
    companion_matrix (.poly (Polynomial.pyInit [0])) = .error .zeroDivisionError :=
  ⟨rfl, rfl, rfl, fun h => PyError.noConfusion (Except.error.inj h), rfl⟩

/-- C5: the block-diagonal builder never returns a matrix: the row assembly
(`blockRows`, from `_populate_zeroes`) does lay out the inputs along the
diagonal with zeros elsewhere, but the final
`Matrix(total_size, blockdiag_matrix, field)` call passes three positional
arguments to the two-parameter constructor and raises `TypeError`. -/
theorem block_diagonal_never_returns_a_matrix :
    block_diagonal [(⟨1, 2, [[1]]⟩ : Matrix), ⟨1, 2, [[0]]⟩] = .error .typeError ∧
    blockRows [(⟨1, 2, [[1]]⟩ : Matrix), ⟨1, 2, [[0]]⟩] 2 = [[1, 0], [0, 0]] :=
  ⟨rfl, by decide⟩

/-- C6: `dx` never returns the derivative: its guard `self.degree() >= 1`
calls the integer value of the `degree` property, so both of the claim's own
examples, `Polynomial([1,1]).dx()` and `Polynomial([5]).dx()`, raise
`TypeError` instead of yielding `Polynomial([1])` and `Polynomial([0])`. -/
theorem polynomial_dx_raises_typeError :
    Polynomial.dx (Polynomial.pyInit [1, 1]) = .error .typeError ∧
    Polynomial.dx (Polynomial.pyInit [5]) = .error .typeError :=
  ⟨rfl, rfl⟩

/-- C7: combining elements of fields with different primes fails with
`TypeError` (the source's `FieldMismatchError`) for add, sub and mul, and no
result is produced. -/
theorem element_field_mismatch_raises (p q : Nat) (hpq : p ≠ q) (a b : Int) :
    Element.add (Element.pyInit ⟨p⟩ a) (.elem (Element.pyInit ⟨q⟩ b)) = .error .typeError ∧
    Element.sub (Element.pyInit ⟨p⟩ a) (.elem (Element.pyInit ⟨q⟩ b)) = .error .typeError ∧
    Element.mul (Element.pyInit ⟨p⟩ a) (.elem (Element.pyInit ⟨q⟩ b)) = .error .typeError := by
  refine ⟨?_, ?_, ?_⟩ <;>
    simp [Element.add, Element.sub, Element.mul, make_other_Element, Element.pyInit, hpq,
      Except.map]

/-- Witness for C7 at `F2` versus `F3`. -/
theorem element_field_mismatch_raises_apply :
    (2 : Nat) ≠ 3 ∧
    Element.add (Element.pyInit ⟨2⟩ 1) (.elem (Element.pyInit ⟨3⟩ 1)) = .error .typeError :=
  ⟨by decide, (element_field_mismatch_raises 2 3 (by decide) 1 1).1⟩

/-- C8, counterexample: the claimed normalization invariant fails for
`FieldElement` coefficients.  `Element` defines no `__eq__`, so the trimming
test `coefi[-1] == 0` is always `False` for an `Element`, whatever residue it
stores: `Polynomial([Element(F2, 1), Element(F2, 0)])` keeps its trailing
zero-residue coefficient (the stored sequence ends in a zero coefficient and
is not `[0]`), and the all-zero `Polynomial([Element(F2, 0), Element(F2, 0)])`
keeps both entries instead of normalizing to `[0]`. -/
theorem polynomial_keeps_trailing_zero_element :
    (PolynomialS.pyInit
        [.elem (Element.pyInit ⟨2⟩ 1), .elem (Element.pyInit ⟨2⟩ 0)]).coefficients
      = [.elem (Element.pyInit ⟨2⟩ 1), .elem (Element.pyInit ⟨2⟩ 0)] ∧
    Scalar.isZeroValue
      ((PolynomialS.pyInit
        [.elem (Element.pyInit ⟨2⟩ 1), .elem (Element.pyInit ⟨2⟩ 0)]).coefficients.getLastD
          (.int 1)) = true ∧
    (PolynomialS.pyInit
        [.elem (Element.pyInit ⟨2⟩ 1), .elem (Element.pyInit ⟨2⟩ 0)]).coefficients
      ≠ [.int 0] ∧
    (PolynomialS.pyInit
        [.elem (Element.pyInit ⟨2⟩ 0), .elem (Element.pyInit ⟨2⟩ 0)]).coefficients.length
      = 2 :=
  ⟨by decide, by decide, by decide, by decide⟩

/-- C8, amended: for every coefficient sequence of PLAIN NUMBERS given to the
constructor, the stored coefficients have no trailing zero, at least one
coefficient is kept, the all-zero sequence is stored as `[0]`, and degree is
the stored length minus one; in particular `Polynomial([1,0,0])` has degree
`0` and coefficients `(1,)`.  (`FieldElement` coefficients are never trimmed,
per the counterexample.) -/
theorem polynomial_pyInitS_trims_plain_numbers (coefs : List Scalar)
    (_hall : coefs.all Scalar.isInt = true) :
    (PolynomialS.pyInit coefs).coefficients ≠ [] ∧
    ((PolynomialS.pyInit coefs).coefficients.getLast? = some (.int 0) →
      (PolynomialS.pyInit coefs).coefficients = [.int 0]) ∧
    ((∀ x ∈ coefs, x = .int 0) → (PolynomialS.pyInit coefs).coefficients = [.int 0]) ∧
    (PolynomialS.pyInit coefs).degree
      = (PolynomialS.pyInit coefs).coefficients.length - 1 ∧
    (PolynomialS.pyInit [.int 1, .int 0, .int 0]).degree = 0 ∧
    (PolynomialS.pyInit [.int 1, .int 0, .int 0]).coefficients = [.int 1] := by
  by_cases h : coefs.length = 0
  · refine ⟨?_, ?_, ?_, rfl, by decide, by decide⟩
    · simp [PolynomialS.pyInit, h]
    · simp [PolynomialS.pyInit, h]
    · simp [PolynomialS.pyInit, h]
  · have hne : coefs ≠ [] := fun hc => h (by simp [hc])
    have hrne : coefs.reverse ≠ [] := by simpa using hne
    have hpz := popZerosS_ne_nil coefs.reverse hrne
    have hcoefs : (PolynomialS.pyInit coefs).coefficients
        = (popZerosS coefs.reverse).reverse := by
      simp [PolynomialS.pyInit, h]
    refine ⟨?_, ?_, ?_, rfl, by decide, by decide⟩
    · rw [hcoefs]
      simpa using hpz
    · rw [hcoefs]
      intro hlast
      rw [List.getLast?_reverse] at hlast
      rw [popZerosS_head_zero _ hlast]
      rfl
    · intro hz
      rw [hcoefs]
      rw [popZerosS_all_zero coefs.reverse hrne
        (fun x hx => hz x (List.mem_reverse.mp hx))]
      rfl

/-- Witness for the amended C8 on the all-zero plain-number input `[0, 0]`. -/
theorem polynomial_pyInitS_trims_plain_numbers_apply :
    (PolynomialS.pyInit [.int 0, .int 0]).coefficients = [.int 0] :=
  (polynomial_pyInitS_trims_plain_numbers [.int 0, .int 0] (by decide)).2.2.1 (by decide)

/-- C9: the claim that no operation mutates its inputs fails at the `Matrix`
constructor: `_elementarise` overwrites the cells of the caller-supplied array
in place, and on `Matrix([[6]], Fp(5))` the caller's array really changes —
the cell values after the rewrite, computed here by the value-level
`_elementarise`, differ from the ones the caller passed in.  (Likewise
`Matrix.__pow__` with exponent `1` runs its loop zero times and returns
`self`, one of its operands, rather than a fresh instance.) -/
theorem elementarise_rewrites_caller_cells :
    _elementarise 5 [[6]] = [[1]] ∧ _elementarise 5 [[6]] ≠ [[6]] :=
  ⟨by decide, by decide⟩

/-- C10: for matrices constructed without a field, `add` and `sub` always
fail — `_checkmatrix` raises `TypeError` whenever the left operand's field is
absent, even when the two matrices have equal size. -/
theorem matrix_fieldless_add_sub_always_fail (m1 m2 : Matrix) (h : m1.field = 0) :
    Matrix.add m1 m2 = .error .typeError ∧ Matrix.sub m1 m2 = .error .typeError := by
  have hc : _checkmatrix m1 m2 = .error .typeError := by
    unfold _checkmatrix
    rw [h]
    split
    · rfl
    · rfl
  constructor
  · unfold Matrix.add
    rw [hc]
  · unfold Matrix.sub
    rw [hc]

/-- Witness for C10 on two equal-size field-less 1×1 matrices. -/
theorem matrix_fieldless_add_sub_always_fail_apply :
    Matrix.add ⟨1, 0, [[1]]⟩ ⟨1, 0, [[2]]⟩ = .error .typeError ∧
    Matrix.sub ⟨1, 0, [[1]]⟩ ⟨1, 0, [[2]]⟩ = .error .typeError :=
  matrix_fieldless_add_sub_always_fail ⟨1, 0, [[1]]⟩ ⟨1, 0, [[2]]⟩ rfl

end PrimeFields
